import Mathlib

/-!
# Verification of `traffic_ticket_optmizer.py`

A shallow embedding of the traffic-ticket policy optimizer: driver profiles,
the round-robin cop pool, the memoized capture-probability estimator, and the
two-level greedy policy optimizer.  All real-valued quantities are embedded as
exact rationals (`ℚ`); the stream of exponential inter-arrival draws used by
the Monte Carlo sampler is an explicit oracle parameter `draws : ℕ → ℕ → ℚ`
(run index, sample index), so every definition is a deterministic function of
its inputs and the oracle.
-/

namespace TrafficTicket

/-- `INF = 999_999_999`, the module-level sentinel constant. -/
def INF : ℚ := 999999999

/-! ## DriverProfile -/

/-- The five attributes a `DriverProfile` instance carries after `__init__`
or `__add__`. -/
structure DriverProfile where
  mph_over_limit : ℚ
  mins_between_drivers : ℚ
  drivers_per_min : ℚ
  dollars_ticketed : ℚ
  revenue_opportunity_per_hour : ℚ
deriving DecidableEq, Repr

/-- `DriverProfile.__init__(mph_over_limit, mins_between_drivers)`. -/
def DriverProfile.ofRaw (mph_over_limit mins_between_drivers : ℚ) : DriverProfile :=
  let drivers_per_min := 1 / mins_between_drivers
  let dollars_ticketed := mph_over_limit * 10
  { mph_over_limit := mph_over_limit
    mins_between_drivers := mins_between_drivers
    drivers_per_min := drivers_per_min
    dollars_ticketed := dollars_ticketed
    revenue_opportunity_per_hour := dollars_ticketed * drivers_per_min * 60 }

/-- `DriverProfile()` with both defaults (`mph_over_limit=0`,
`mins_between_drivers=INF`): the "no drivers" sentinel profile. -/
def DriverProfile.null : DriverProfile := DriverProfile.ofRaw 0 INF

/-- `DriverProfile.__add__`: rates add, the mean gap is the reciprocal of the
summed rate, revenue opportunities add, and fine and severity are
rate-weighted averages. -/
def DriverProfile.add (self other : DriverProfile) : DriverProfile :=
  let drivers_per_min := self.drivers_per_min + other.drivers_per_min
  let self_weight := self.drivers_per_min / drivers_per_min
  let other_weight := other.drivers_per_min / drivers_per_min
  { drivers_per_min := drivers_per_min
    mins_between_drivers := 1 / drivers_per_min
    revenue_opportunity_per_hour :=
      self.revenue_opportunity_per_hour + other.revenue_opportunity_per_hour
    dollars_ticketed := self_weight * self.dollars_ticketed + other_weight * other.dollars_ticketed
    mph_over_limit := self_weight * self.mph_over_limit + other_weight * other.mph_over_limit }

/-! ## Cop and the cop queue -/

/-- Class constant `Cop.ticketing_time_mins = 15`. -/
def ticketing_time_mins : ℚ := 15

/-- Class constant `Cop.dollar_cost_per_hour = 300`. -/
def dollar_cost_per_hour : ℚ := 300

/-- One cop: the unique id assigned from the class counter `Cop.n_cops`, and
the countdown until the cop is free again. -/
structure Cop where
  id : ℕ
  mins_until_avail : ℚ
deriving DecidableEq, Repr

/-- `[Cop() for _ in range(k)]` starting from class counter `counter`:
returns the freshly constructed cops (ids `counter+1, …, counter+k`, all
immediately available) and the new counter. -/
def mkCops (counter : ℕ) : ℕ → List Cop × ℕ
  | 0 => ([], counter)
  | k + 1 =>
    let rest := mkCops (counter + 1) k
    (⟨counter + 1, 0⟩ :: rest.1, rest.2)

/-- `Cops.__init__(n_cops)`: rejects pools smaller than one cop, otherwise
builds the queue.  `n_cops` is a Python `int`, hence `ℤ`. -/
def copsInit (counter : ℕ) (n_cops : ℤ) : Except String (List Cop × ℕ) :=
  if n_cops < 1 then .error "must have at least one cop"
  else .ok (mkCops counter n_cops.toNat)

/-- `Cops.__iadd__(other)`: appends `other` newly constructed cops to the back
of the queue; threads the class counter. -/
def copsIAdd (counter : ℕ) (other : ℕ) (q : List Cop) : List Cop × ℕ :=
  let new := mkCops counter other
  (q ++ new.1, new.2)

/-- `Cops.__isub__(other)`: raises (queue untouched, since the `raise` occurs
before the `del`) when fewer than one cop would remain; otherwise
`del self.queue[-other:]`.  For `other > 0` that drops the last `other` cops;
for `other ≤ 0` the slice `queue[-other:]` starts at the non-negative index
`-other`, so everything from that index on is deleted (in particular
`other = 0` empties the queue). -/
def copsISub (other : ℤ) (q : List Cop) : Except String Unit × List Cop :=
  if (q.length : ℤ) - other < 1 then (.error "must have at least one cop", q)
  else
    let keep : ℕ := if 0 < other then q.length - other.toNat else (-other).toNat
    (.ok (), q.take keep)

/-- `Cops.is_available()`: whether the front cop's countdown is zero.
Python would raise `IndexError` on an empty queue; the embedding only applies
this to queues guarded non-empty. -/
def is_available : List Cop → Bool
  | [] => false
  | c :: _ => c.mins_until_avail = 0

/-- `Cops.get_cost_per_hour()`. -/
def get_cost_per_hour (q : List Cop) : ℚ := dollar_cost_per_hour * q.length

/-- The body of `Cops.elapse_mins` walks `reversed(self.queue)`; this helper
processes that reversed list: it stops at the first cop already at `0` and
floors every other countdown at `0` after subtracting `mins`. -/
def elapseAux (mins : ℚ) : List Cop → List Cop
  | [] => []
  | c :: rest =>
    if c.mins_until_avail = 0 then c :: rest
    else { c with mins_until_avail := max 0 (c.mins_until_avail - mins) } :: elapseAux mins rest

/-- `Cops.elapse_mins(mins)`: advance simulated time, walking from the back of
the queue and breaking at the first already-available cop. -/
def elapse_mins (mins : ℚ) (q : List Cop) : List Cop :=
  (elapseAux mins q.reverse).reverse

/-- Modelled from the spec: "a correct implementation may instead decrement
all servers unconditionally with identical observable results" — the
unconditional comparator for the refinement claim: every countdown becomes
`max 0 (countdown - mins)`. -/
def elapse_all (mins : ℚ) (q : List Cop) : List Cop :=
  q.map fun c => { c with mins_until_avail := max 0 (c.mins_until_avail - mins) }

/-- `Cops.issue_ticket()` restricted to its effect on the queue: the front
cop's countdown is set to `ticketing_time_mins` and the cop rotates to the
back.  (Marking the optional `driver` ticketed does not touch the queue.)
Python would raise `IndexError` on an empty queue; only applied when
guarded non-empty. -/
def issue_ticket : List Cop → List Cop
  | [] => []
  | c :: rest => rest ++ [{ c with mins_until_avail := ticketing_time_mins }]

/-! ## The capture-probability estimator `Cops.p_driver_ticketed` -/

/-- The class-level dictionary `Cops.p_driver_ticketed_cache`, keyed by
`f"{round(mins_between_drivers, 4)}_{len(self.queue)}"`; embedded as an
association list from `(rounded gap, queue length)` to the cached estimate.
Being a class attribute, it is shared by every `Cops` instance. -/
abbrev Cache := List ((ℚ × ℕ) × ℚ)

/-- Lookup in the class-level cache. -/
def cacheFind (key : ℚ × ℕ) : Cache → Option ℚ
  | [] => none
  | (k, v) :: rest => if k = key then some v else cacheFind key rest

/-- Python's `round(x, 4)` used to canonicalize the cache key. -/
def round4 (x : ℚ) : ℚ := (round (x * 10000) : ℤ) / 10000

/-- The default `n_samples=10_000` of `p_driver_ticketed`. -/
def n_samples_default : ℕ := 10000

/-- The Monte Carlo sampling loop of `p_driver_ticketed`: for each of the
remaining `k` samples (the absolute sample index is `i`), elapse one
exponential inter-arrival gap `d i * gap`, and if the front cop is free issue
a ticket.  Returns the number of ticketed drivers together with the final
queue. -/
def mcRun (d : ℕ → ℚ) (gap : ℚ) : ℕ → ℕ → List Cop → ℕ → ℕ × List Cop
  | _, 0, q, n_ticketed => (n_ticketed, q)
  | i, k + 1, q, n_ticketed =>
    let q1 := elapse_mins (d i * gap) q
    if is_available q1 then mcRun d gap (i + 1) k (issue_ticket q1) (n_ticketed + 1)
    else mcRun d gap (i + 1) k q1 n_ticketed

/-- `Cops.p_driver_ticketed(mins_between_drivers, n_samples)`.

* single cop: the exact closed form `gap / (gap + ticketing_time_mins)`
  (Python raises `ZeroDivisionError` when the denominator is zero);
* otherwise: answer from the shared class-level cache when the rounded key is
  present, else run the Monte Carlo loop, flush the queue with
  `elapse_mins(INF)`, cache and return the estimate.

The randomness of `expon.ppf(random())` is the oracle `draws`: run `runs`
(the number of sampling loops completed so far, threaded as explicit state)
uses the draw stream `draws runs`.  With `n_samples = 0` Python reaches
`n_drivers_ticketed / n_drivers` with `n_drivers = 0` and raises
`ZeroDivisionError`; with an empty queue and at least one sample,
`self.queue[0]` in `is_available` raises `IndexError`.  (Python raises these
after having mutated the queue; the embedding returns the error alone, which
is faithful for every state this development evaluates.) -/
def p_driver_ticketed (draws : ℕ → ℕ → ℚ) (mins_between_drivers : ℚ) (n_samples : ℕ)
    (q : List Cop) (cache : Cache) (runs : ℕ) :
    Except String (ℚ × List Cop × Cache × ℕ) :=
  if q.length = 1 then
    if mins_between_drivers + ticketing_time_mins = 0 then .error "ZeroDivisionError"
    else .ok (mins_between_drivers / (mins_between_drivers + ticketing_time_mins), q, cache, runs)
  else
    let key : ℚ × ℕ := (round4 mins_between_drivers, q.length)
    match cacheFind key cache with
    | some v => .ok (v, q, cache, runs)
    | none =>
      if n_samples = 0 then .error "ZeroDivisionError"
      else if q.isEmpty then .error "IndexError"
      else
        let r := mcRun (draws runs) mins_between_drivers 0 n_samples q 0
        let p : ℚ := (r.1 : ℚ) / (n_samples : ℚ)
        .ok (p, elapse_mins INF r.2, (key, p) :: cache, runs + 1)

/-! ## TrafficPattern -/

/-- The sort key of `TrafficPattern.__init__`:
`sorted(driver_profiles, key=lambda x: x.mph_over_limit, reverse=True)` —
a stable descending sort on severity. -/
def sortBySeverityDesc (profiles : List DriverProfile) : List DriverProfile :=
  profiles.mergeSort fun a b => b.mph_over_limit ≤ a.mph_over_limit

/-- `reduce(lambda x, y: x + y, profiles)`: left fold of `DriverProfile.add`
over a non-empty list.  (Python's `reduce` raises `TypeError` on an empty
list; every `reduce` in the source is applied to a non-empty list, and the
embedding returns the null profile in the unreachable empty case.) -/
def reduceAdd : List DriverProfile → DriverProfile
  | [] => DriverProfile.null
  | p :: ps => ps.foldl DriverProfile.add p

/-- The mutable state of a `TrafficPattern`, together with the two pieces of
class-level state the instance methods read and write: the cop-id counter
`Cop.n_cops` (`cop_counter`) and the shared estimator cache with its
completed-run count (`cache`, `runs`). -/
structure TrafficPattern where
  cops : List Cop
  cop_counter : ℕ
  driver_profiles : List DriverProfile
  total_profile : DriverProfile
  profile_weights : List ℚ
  target_profiles : List DriverProfile
  target_profile : DriverProfile
  cache : Cache
  runs : ℕ
deriving DecidableEq, Repr

/-- `TrafficPattern.__init__(driver_profiles)`: rejects an empty profile
list; builds a one-cop pool, the severity-sorted profile list, the aggregate
profile, the sampling weights, and an empty target set.  `counter`, `cache`
and `runs` are the ambient class-level state. -/
def TrafficPattern.init (counter : ℕ) (cache : Cache) (runs : ℕ)
    (driver_profiles : List DriverProfile) : Except String TrafficPattern :=
  if driver_profiles.length = 0 then .error "no driver profiles provided"
  else
    let cops := mkCops counter 1
    let sorted := sortBySeverityDesc driver_profiles
    let total := reduceAdd sorted
    .ok { cops := cops.1
          cop_counter := cops.2
          driver_profiles := sorted
          total_profile := total
          profile_weights := sorted.map fun d => d.drivers_per_min / total.drivers_per_min
          target_profiles := []
          target_profile := DriverProfile.null
          cache := cache
          runs := runs }

/-- `TrafficPattern.get_revenue_per_hour()`: the capture probability for the
current target aggregate times its revenue opportunity, minus the pool cost.
The estimator call may mutate the queue and the class-level cache state, so
the updated pattern is returned alongside the revenue. -/
def get_revenue_per_hour (draws : ℕ → ℕ → ℚ) (tp : TrafficPattern) :
    Except String (ℚ × TrafficPattern) :=
  match p_driver_ticketed draws tp.target_profile.mins_between_drivers n_samples_default
      tp.cops tp.cache tp.runs with
  | .error e => .error e
  | .ok (p, q, cache, runs) =>
    .ok (p * tp.target_profile.revenue_opportunity_per_hour - get_cost_per_hour tp.cops,
         { tp with cops := q, cache := cache, runs := runs })

/-- The `while` loop of `TrafficPattern.optimize_on_target_profiles` together
with the trailing roll-back `if`.  Each loop check recomputes the revenue
(one estimator call), and an accepted iteration recomputes it again for the
`max_revenue` assignment before appending the next most severe profile
(`self.driver_profiles[len(self.target_profiles)]`, in bounds by the loop
condition).  On exit a final revenue call decides whether the last appended
profile is popped, in which case the aggregate is rebuilt by `reduce` over
the remaining targets.  `fuel` bounds the recursion; `driver_profiles.length`
plus two always suffices because every iteration appends one profile. -/
def optTargetLoop (draws : ℕ → ℕ → ℚ) (maxRev : ℚ) (tp : TrafficPattern) :
    ℕ → Except String TrafficPattern
  | 0 => .ok tp
  | fuel + 1 =>
    match get_revenue_per_hour draws tp with
    | .error e => .error e
    | .ok (rev, tp1) =>
      if rev > maxRev ∧ tp1.target_profiles.length < tp1.driver_profiles.length then
        match get_revenue_per_hour draws tp1 with
        | .error e => .error e
        | .ok (rev2, tp2) =>
          let marginal := tp2.driver_profiles.getD tp2.target_profiles.length DriverProfile.null
          optTargetLoop draws rev2
            { tp2 with
              target_profiles := tp2.target_profiles ++ [marginal]
              target_profile := tp2.target_profile.add marginal } fuel
      else
        match get_revenue_per_hour draws tp1 with
        | .error e => .error e
        | .ok (revF, tp2) =>
          if revF < maxRev then
            .ok { tp2 with
                  target_profiles := tp2.target_profiles.dropLast
                  target_profile := reduceAdd tp2.target_profiles.dropLast }
          else .ok tp2

/-- `TrafficPattern.optimize_on_target_profiles()`. -/
def optimize_on_target_profiles (draws : ℕ → ℕ → ℚ) (tp : TrafficPattern) :
    Except String TrafficPattern :=
  optTargetLoop draws (-INF) tp (tp.driver_profiles.length + 2)

/-- The `while` loop of `TrafficPattern.optimize_on_n_cops` and its trailing
roll-back.  An accepted iteration recomputes the revenue for the
`max_revenue` assignment, binds `prev_target_profiles`, appends one cop and
re-optimizes the target set.  On the first strictly decreasing step the loop
exits and the roll-back runs: `self.cops -= 1` (checked by `__isub__`) and
`self.target_profiles = prev_target_profiles`.

The latter assignment is a no-op: `prev_target_profiles` holds a *reference*
to the very list object bound to `self.target_profiles`, and
`optimize_on_target_profiles` only ever mutates that object in place
(`append`/`pop`) — it never rebinds the attribute.  The "rolled back" target
list is therefore whatever the final, rejected `optimize_on_target_profiles`
call left behind, and the embedding accordingly keeps `target_profiles`
unchanged at the exit, rebuilding only the aggregate `target_profile` by
`reduce` as the source does.  (`prev_target_profiles` is always bound before
the exit because the first loop check `revenue ≥ -INF` succeeds for every
state this development evaluates.) -/
def optNCopsLoop (draws : ℕ → ℕ → ℚ) (maxRev : ℚ) (tp : TrafficPattern) :
    ℕ → Except String TrafficPattern
  | 0 => .ok tp
  | fuel + 1 =>
    match get_revenue_per_hour draws tp with
    | .error e => .error e
    | .ok (rev, tp1) =>
      if rev ≥ maxRev then
        match get_revenue_per_hour draws tp1 with
        | .error e => .error e
        | .ok (rev2, tp2) =>
          let grown := copsIAdd tp2.cop_counter 1 tp2.cops
          match optimize_on_target_profiles draws
              { tp2 with cops := grown.1, cop_counter := grown.2 } with
          | .error e => .error e
          | .ok tp3 => optNCopsLoop draws rev2 tp3 fuel
      else
        match copsISub 1 tp1.cops with
        | (.error e, _) => .error e
        | (.ok _, q) =>
          .ok { tp1 with
                cops := q
                target_profile := reduceAdd tp1.target_profiles }

/-- `TrafficPattern.optimize_on_n_cops()`: one target-set optimization at the
current count, then the accept/roll-back loop over increasing cop counts. -/
def optimize_on_n_cops (draws : ℕ → ℕ → ℚ) (tp : TrafficPattern) (fuel : ℕ) :
    Except String TrafficPattern :=
  match optimize_on_target_profiles draws tp with
  | .error e => .error e
  | .ok tp1 => optNCopsLoop draws (-INF) tp1 fuel

/-! ## Helper lemmas -/

/-- `elapseAux` preserves the length of the (reversed) queue. -/
theorem elapseAux_length (mins : ℚ) (l : List Cop) :
    (elapseAux mins l).length = l.length := by
  induction l with
  | nil => rfl
  | cons c rest ih =>
    simp only [elapseAux]
    split
    · rfl
    · simp [ih]

/-- `elapse_mins` preserves the length of the queue. -/
theorem elapse_mins_length (mins : ℚ) (q : List Cop) :
    (elapse_mins mins q).length = q.length := by
  simp [elapse_mins, elapseAux_length]

/-- `issue_ticket` preserves the length of the queue. -/
theorem issue_ticket_length (q : List Cop) :
    (issue_ticket q).length = q.length := by
  cases q <;> simp [issue_ticket]

/-- The Monte Carlo loop preserves the length of the queue. -/
theorem mcRun_length (d : ℕ → ℚ) (gap : ℚ) (k i : ℕ) (q : List Cop) (nt : ℕ) :
    (mcRun d gap i k q nt).2.length = q.length := by
  induction k generalizing i q nt with
  | zero => rfl
  | succ k ih =>
    simp only [mcRun]
    split
    · rw [ih, issue_ticket_length, elapse_mins_length]
    · rw [ih, elapse_mins_length]

/-! ## C10 — DriverProfile constructor invariants -/

/-- C10: for every `DriverProfile` built from its two raw inputs, the fine is
exactly ten dollars per mph over the limit, and the revenue opportunity per
hour is that fine times the arrival rate `1 / mins_between_drivers` times 60;
the fine and revenue are not independent inputs. -/
theorem driverProfile_ofRaw_derived_fields (mph gap : ℚ) :
    (DriverProfile.ofRaw mph gap).dollars_ticketed = 10 * mph ∧
    (DriverProfile.ofRaw mph gap).revenue_opportunity_per_hour =
      (10 * mph) * (1 / gap) * 60 ∧
    (DriverProfile.ofRaw mph gap).drivers_per_min = 1 / gap := by
  refine ⟨?_, ?_, rfl⟩
  · show mph * 10 = 10 * mph
    ring
  · show mph * 10 * (1 / gap) * 60 = (10 * mph) * (1 / gap) * 60
    ring

/-! ## C4 — profile combination is commutative and associative -/

/-- C4: over exact rational arithmetic, `DriverProfile.__add__` is commutative
and associative (as full structure equality: arrival rate, mean gap,
severity, fine, and revenue opportunity all agree) whenever the arrival rates
are positive. -/
theorem driverProfile_add_comm_assoc (A B C : DriverProfile)
    (hA : 0 < A.drivers_per_min) (hB : 0 < B.drivers_per_min)
    (hC : 0 < C.drivers_per_min) :
    A.add B = B.add A ∧ (A.add B).add C = A.add (B.add C) := by
  have hAB : A.drivers_per_min + B.drivers_per_min ≠ 0 := by positivity
  have hBC : B.drivers_per_min + C.drivers_per_min ≠ 0 := by positivity
  have hABC : A.drivers_per_min + B.drivers_per_min + C.drivers_per_min ≠ 0 := by positivity
  constructor
  · simp only [DriverProfile.add, DriverProfile.mk.injEq]
    refine ⟨?_, ?_, ?_, ?_, ?_⟩ <;> ring
  · simp only [DriverProfile.add, DriverProfile.mk.injEq]
    have hABC' : A.drivers_per_min + (B.drivers_per_min + C.drivers_per_min) ≠ 0 := by
      rw [← add_assoc]; exact hABC
    refine ⟨?_, ?_, ?_, ?_, ?_⟩ <;> (try field_simp) <;> ring

/-- Witness for C4 at three concrete profiles. -/
theorem driverProfile_add_comm_assoc_witness :
    let A := DriverProfile.ofRaw 20 40
    let B := DriverProfile.ofRaw 10 10
    let C := DriverProfile.ofRaw 5 5
    A.add B = B.add A ∧ (A.add B).add C = A.add (B.add C) :=
  driverProfile_add_comm_assoc _ _ _ (by norm_num [DriverProfile.ofRaw])
    (by norm_num [DriverProfile.ofRaw]) (by norm_num [DriverProfile.ofRaw])

/-! ## C3 — single-cop closed form -/

/-- C3: with exactly one cop in the pool, `p_driver_ticketed` returns the
exact closed form `gap / (gap + ticketing_time_mins)` — the queue, cache and
run counter are untouched, so no Monte Carlo sampling happens — and for the
most severe example profile (20 mph over, 40-minute gap) the capture
probability times the profile's revenue opportunity is exactly
`(40/55) * 300` dollars per hour. -/
theorem p_driver_ticketed_single_cop (draws : ℕ → ℕ → ℚ) (gap : ℚ) (n_samples : ℕ)
    (q : List Cop) (cache : Cache) (runs : ℕ) (hq : q.length = 1) (hgap : 0 < gap) :
    p_driver_ticketed draws gap n_samples q cache runs =
      .ok (gap / (gap + ticketing_time_mins), q, cache, runs) ∧
    (40 / (40 + ticketing_time_mins)) *
      (DriverProfile.ofRaw 20 40).revenue_opportunity_per_hour = (40 / 55) * 300 := by
  constructor
  · have hne : gap + ticketing_time_mins ≠ 0 := by
      have : (0 : ℚ) < ticketing_time_mins := by norm_num [ticketing_time_mins]
      positivity
    unfold p_driver_ticketed
    rw [if_pos hq, if_neg hne]
  · norm_num [DriverProfile.ofRaw, ticketing_time_mins]

/-- Witness for C3 at a concrete one-cop pool and the 40-minute gap. -/
theorem p_driver_ticketed_single_cop_witness :
    p_driver_ticketed (fun _ _ => 0) 40 10000 [⟨1, 0⟩] [] 0 =
      .ok (40 / (40 + ticketing_time_mins), [⟨1, 0⟩], [], 0) ∧
    (40 / (40 + ticketing_time_mins)) *
      (DriverProfile.ofRaw 20 40).revenue_opportunity_per_hour = (40 / 55) * 300 :=
  p_driver_ticketed_single_cop (fun _ _ => 0) 40 10000 [⟨1, 0⟩] [] 0 rfl (by norm_num)

/-! ## C6 — minimum pool size is enforced, failed shrinks change nothing -/

/-- C6: constructing a pool with fewer than one cop fails, and a shrink that
would leave fewer than one cop fails with the queue returned exactly as it
was (same cops, same order, same countdowns) — the `raise` precedes the
`del`. -/
theorem cops_min_size_enforced (counter : ℕ) (n other : ℤ) (q : List Cop)
    (hn : n < 1) (hother : (q.length : ℤ) - other < 1) :
    copsInit counter n = .error "must have at least one cop" ∧
    copsISub other q = (.error "must have at least one cop", q) := by
  constructor
  · unfold copsInit; rw [if_pos hn]
  · unfold copsISub; rw [if_pos hother]

/-- Witness for C6: an empty construction request and a shrink of a two-cop
queue by two. -/
theorem cops_min_size_enforced_witness :
    copsInit 0 0 = .error "must have at least one cop" ∧
    copsISub 2 [⟨1, 5⟩, ⟨2, 0⟩] = (.error "must have at least one cop", [⟨1, 5⟩, ⟨2, 0⟩]) :=
  cops_min_size_enforced 0 0 2 [⟨1, 5⟩, ⟨2, 0⟩] (by norm_num) (by norm_num)

/-! ## C8 — `p_driver_ticketed` performs no input validation -/

/-- C8 counterexample: called with mean gap `0 ≤ 0` on a single-cop pool,
`p_driver_ticketed` does not fail — it returns `0 / (0 + 15) = 0` — so the
claim that it raises `InvalidParameter` whenever the gap is non-positive is
false. -/
theorem p_driver_ticketed_gap_zero_no_error :
    p_driver_ticketed (fun _ _ => 0) 0 10000 [⟨1, 0⟩] [] 0 = .ok (0, [⟨1, 0⟩], [], 0) := by
  unfold p_driver_ticketed
  norm_num [ticketing_time_mins]

/-- C8 amended: `p_driver_ticketed` validates nothing.  On a single-cop pool
it evaluates the closed form for *every* gap — including gaps `≤ 0` — and the
only failure is Python's own `ZeroDivisionError` when the denominator
`gap + ticketing_time_mins` is zero. -/
theorem p_driver_ticketed_no_validation (draws : ℕ → ℕ → ℚ) (gap : ℚ) (n_samples : ℕ)
    (q : List Cop) (cache : Cache) (runs : ℕ) (hq : q.length = 1) :
    (gap + ticketing_time_mins = 0 →
      p_driver_ticketed draws gap n_samples q cache runs = .error "ZeroDivisionError") ∧
    (gap + ticketing_time_mins ≠ 0 →
      p_driver_ticketed draws gap n_samples q cache runs =
        .ok (gap / (gap + ticketing_time_mins), q, cache, runs)) := by
  constructor
  · intro h; unfold p_driver_ticketed; rw [if_pos hq, if_pos h]
  · intro h; unfold p_driver_ticketed; rw [if_pos hq, if_neg h]

/-- Witness for C8's amended statement on a one-cop pool at the negative gap
`-15` (the division-by-zero case) and, vacuously on the left, at any other
gap via the hypothesis. -/
theorem p_driver_ticketed_no_validation_witness :
    ((-15 : ℚ) + ticketing_time_mins = 0 →
      p_driver_ticketed (fun _ _ => 0) (-15) 10000 [⟨1, 0⟩] [] 0 =
        .error "ZeroDivisionError") ∧
    ((-15 : ℚ) + ticketing_time_mins ≠ 0 →
      p_driver_ticketed (fun _ _ => 0) (-15) 10000 [⟨1, 0⟩] [] 0 =
        .ok ((-15) / ((-15) + ticketing_time_mins), [⟨1, 0⟩], [], 0)) :=
  p_driver_ticketed_no_validation (fun _ _ => 0) (-15) 10000 [⟨1, 0⟩] [] 0 rfl

/-! ## C2 — early-stopping `elapse_mins` vs unconditional decrement -/

/-- C2 counterexample: the state `[⟨1, 15⟩, ⟨2, 0⟩]` is reachable through the
public operations (construct a one-cop pool, issue a ticket, resize up by
one), yet on it the early-stopping walk differs from unconditional
decrementing: `elapse_mins 20` stops at the fresh back cop and leaves the
front countdown at `15`, while decrementing every cop would zero it. -/
theorem elapse_early_stop_counterexample :
    copsInit 0 1 = .ok ([⟨1, 0⟩], 1) ∧
    issue_ticket [⟨1, 0⟩] = [⟨1, 15⟩] ∧
    copsIAdd 1 1 [⟨1, 15⟩] = ([⟨1, 15⟩, ⟨2, 0⟩], 2) ∧
    elapse_mins 20 [⟨1, 15⟩, ⟨2, 0⟩] ≠ elapse_all 20 [⟨1, 15⟩, ⟨2, 0⟩] := by
  refine ⟨rfl, rfl, rfl, ?_⟩
  have h1 : elapse_mins 20 [⟨1, 15⟩, ⟨2, 0⟩] = [⟨1, 15⟩, ⟨2, 0⟩] := by
    simp [elapse_mins, elapseAux]
  have h2 : elapse_all 20 [⟨1, 15⟩, ⟨2, 0⟩] = [⟨1, 0⟩, ⟨2, 0⟩] := by
    simp only [elapse_all, List.map_cons, List.map_nil]
    norm_num [max_eq_left]
  rw [h1, h2]
  simp

/-- On a segment of busy cops, the early-stopping walk decrements every one
of them, exactly as the unconditional decrement does, before reaching the
rest of the (reversed) queue. -/
theorem elapseAux_append_busy (mins : ℚ) (l l₂ : List Cop)
    (hl : ∀ c ∈ l, c.mins_until_avail ≠ 0) :
    elapseAux mins (l ++ l₂) = elapse_all mins l ++ elapseAux mins l₂ := by
  induction l with
  | nil => simp [elapse_all]
  | cons c rest ih =>
    have hc : c.mins_until_avail ≠ 0 := hl c (by simp)
    simp only [List.cons_append, elapseAux, if_neg hc, elapse_all, List.map_cons]
    refine congrArg _ ?_
    exact ih fun x hx => hl x (by simp [hx])

/-- The early-stopping walk halts immediately on a queue whose first cop is
already available. -/
theorem elapseAux_zeros (mins : ℚ) (l : List Cop)
    (hl : ∀ c ∈ l, c.mins_until_avail = 0) : elapseAux mins l = l := by
  cases l with
  | nil => rfl
  | cons c rest => simp [elapseAux, hl c (by simp)]

/-- Unconditional decrementing fixes cops that are already available, for a
non-negative elapse. -/
theorem elapse_all_zeros (mins : ℚ) (hm : 0 ≤ mins) (l : List Cop)
    (hl : ∀ c ∈ l, c.mins_until_avail = 0) : elapse_all mins l = l := by
  induction l with
  | nil => rfl
  | cons c rest ih =>
    have hc : c.mins_until_avail = 0 := hl c (by simp)
    have hrest : List.map
        (fun c => ({ c with mins_until_avail := max 0 (c.mins_until_avail - mins) } : Cop))
        rest = rest := ih fun x hx => hl x (by simp [hx])
    simp only [elapse_all, List.map_cons, hrest]
    refine congrArg (· :: rest) ?_
    cases c with
    | mk i m =>
      simp only at hc
      simp [Cop.mk.injEq, hc, max_eq_left, hm, neg_nonpos]

/-- C2 amended: on every pool state in which the already-available cops form
a front segment of the queue (all busy cops sit behind them) — which holds in
every state the program itself reaches, but can be destroyed by resizing up a
pool holding a busy cop — the early-stopping walk is observably identical to
decrementing every cop unconditionally (for any non-negative elapse). -/
theorem elapse_early_stop_equiv (mins : ℚ) (zs bs : List Cop)
    (hm : 0 ≤ mins)
    (hzs : ∀ c ∈ zs, c.mins_until_avail = 0)
    (hbs : ∀ c ∈ bs, c.mins_until_avail ≠ 0) :
    elapse_mins mins (zs ++ bs) = elapse_all mins (zs ++ bs) := by
  have hbs' : ∀ c ∈ bs.reverse, c.mins_until_avail ≠ 0 := fun c hc =>
    hbs c (List.mem_reverse.mp hc)
  have hzs' : ∀ c ∈ zs.reverse, c.mins_until_avail = 0 := fun c hc =>
    hzs c (List.mem_reverse.mp hc)
  unfold elapse_mins
  rw [List.reverse_append, elapseAux_append_busy mins bs.reverse zs.reverse hbs',
    elapseAux_zeros mins zs.reverse hzs']
  have hrev : elapse_all mins bs.reverse = (elapse_all mins bs).reverse := by
    simp [elapse_all, List.map_reverse]
  rw [hrev, List.reverse_append, List.reverse_reverse, List.reverse_reverse]
  simp only [elapse_all, List.map_append]
  refine congrArg (· ++ _) ?_
  exact (elapse_all_zeros mins hm zs hzs).symm

/-- Witness for C2's amended statement: a front-available, back-busy queue
where the early stop and the unconditional decrement agree. -/
theorem elapse_early_stop_equiv_witness :
    elapse_mins 3 ([⟨1, 0⟩] ++ [⟨2, 7⟩]) = elapse_all 3 ([⟨1, 0⟩] ++ [⟨2, 7⟩]) :=
  elapse_early_stop_equiv 3 [⟨1, 0⟩] [⟨2, 7⟩] (by norm_num)
    (by intro c hc; simp at hc; simp [hc]) (by intro c hc; simp at hc; simp [hc])

/-! ## Branch behaviour of the estimator (helper lemmas) -/

/-- A multi-cop estimator call whose rounded key is cached answers from the
cache and leaves the queue, the cache and the run counter untouched. -/
theorem pdt_hit (draws : ℕ → ℕ → ℚ) (gap : ℚ) (n_samples : ℕ) (q : List Cop)
    (cache : Cache) (runs : ℕ) (v : ℚ) (hq : q.length ≠ 1)
    (hfind : cacheFind (round4 gap, q.length) cache = some v) :
    p_driver_ticketed draws gap n_samples q cache runs = .ok (v, q, cache, runs) := by
  unfold p_driver_ticketed
  simp only [if_neg hq, hfind]

/-- A multi-cop estimator call on a missing key runs the Monte Carlo loop
once, flushes the queue, stores the estimate under the rounded key and bumps
the run counter. -/
theorem pdt_miss (draws : ℕ → ℕ → ℚ) (gap : ℚ) (n_samples : ℕ) (q : List Cop)
    (cache : Cache) (runs : ℕ) (hq : q.length ≠ 1) (hq0 : q ≠ [])
    (hnS : n_samples ≠ 0)
    (hfind : cacheFind (round4 gap, q.length) cache = none) :
    p_driver_ticketed draws gap n_samples q cache runs =
      .ok (((mcRun (draws runs) gap 0 n_samples q 0).1 : ℚ) / (n_samples : ℚ),
        elapse_mins INF (mcRun (draws runs) gap 0 n_samples q 0).2,
        ((round4 gap, q.length),
          ((mcRun (draws runs) gap 0 n_samples q 0).1 : ℚ) / (n_samples : ℚ)) :: cache,
        runs + 1) := by
  have hE : q.isEmpty = false := by
    cases q with
    | nil => exact absurd rfl hq0
    | cons c t => rfl
  unfold p_driver_ticketed
  simp only [if_neg hq, hfind, if_neg hnS, hE, Bool.false_eq_true, if_false]

/-- A multi-cop estimator call on a missing key with zero samples reaches the
division `n_drivers_ticketed / n_drivers` with `n_drivers = 0`. -/
theorem pdt_zero_samples (draws : ℕ → ℕ → ℚ) (gap : ℚ) (q : List Cop)
    (cache : Cache) (runs : ℕ) (hq : q.length ≠ 1)
    (hfind : cacheFind (round4 gap, q.length) cache = none) :
    p_driver_ticketed draws gap 0 q cache runs = .error "ZeroDivisionError" := by
  unfold p_driver_ticketed
  simp only [if_neg hq, hfind, if_pos trivial]

/-! ## C7 — the estimate cache is idempotent -/

/-- C7: on a pool of more than one cop, two consecutive `p_driver_ticketed`
calls whose mean gaps round to the same 4-decimal key (and hence share the
cache key, the queue length being equal) return identical values; across the
two calls the Monte Carlo sampling loop executes at most once (the run
counter rises by at most one), and the second call is answered entirely from
the cache: it leaves the queue, the cache and the run counter unchanged. -/
theorem p_driver_ticketed_cache_idempotent (draws : ℕ → ℕ → ℚ) (n_samples : ℕ)
    (gap1 gap2 : ℚ) (q q1 q2 : List Cop) (cache c1 c2 : Cache) (runs r1 r2 : ℕ)
    (v1 v2 : ℚ) (hq : 2 ≤ q.length) (hkey : round4 gap1 = round4 gap2)
    (h1 : p_driver_ticketed draws gap1 n_samples q cache runs = .ok (v1, q1, c1, r1))
    (h2 : p_driver_ticketed draws gap2 n_samples q1 c1 r1 = .ok (v2, q2, c2, r2)) :
    v2 = v1 ∧ r1 ≤ runs + 1 ∧ r2 = r1 ∧ q2 = q1 ∧ c2 = c1 := by
  have hq1 : q.length ≠ 1 := by omega
  have hq0 : q ≠ [] := by
    cases q with
    | nil => simp at hq
    | cons c t => simp
  cases hfind : cacheFind (round4 gap1, q.length) cache with
  | some v =>
    rw [pdt_hit draws gap1 n_samples q cache runs v hq1 hfind] at h1
    simp only [Except.ok.injEq, Prod.mk.injEq] at h1
    obtain ⟨hv1, hqq, hcc, hrr⟩ := h1
    have hfind2 : cacheFind (round4 gap2, q1.length) c1 = some v1 := by
      rw [← hqq, ← hcc, ← hkey, ← hv1]; exact hfind
    have hq1ne : q1.length ≠ 1 := by rw [← hqq]; exact hq1
    rw [pdt_hit draws gap2 n_samples q1 c1 r1 v1 hq1ne hfind2] at h2
    simp only [Except.ok.injEq, Prod.mk.injEq] at h2
    exact ⟨h2.1.symm, by omega, h2.2.2.2.symm, h2.2.1.symm, h2.2.2.1.symm⟩
  | none =>
    have hnS : n_samples ≠ 0 := by
      intro h0
      subst h0
      rw [pdt_zero_samples draws gap1 q cache runs hq1 hfind] at h1
      exact absurd h1 (by simp)
    rw [pdt_miss draws gap1 n_samples q cache runs hq1 hq0 hnS hfind] at h1
    obtain ⟨hv1, hq1', hc1, hr1⟩ :
        ((mcRun (draws runs) gap1 0 n_samples q 0).1 : ℚ) / (n_samples : ℚ) = v1 ∧
        elapse_mins INF (mcRun (draws runs) gap1 0 n_samples q 0).2 = q1 ∧
        ((round4 gap1, q.length),
          ((mcRun (draws runs) gap1 0 n_samples q 0).1 : ℚ) / (n_samples : ℚ)) :: cache = c1 ∧
        runs + 1 = r1 := by
      simp only [Except.ok.injEq, Prod.mk.injEq] at h1
      exact ⟨h1.1, h1.2.1, h1.2.2.1, h1.2.2.2⟩
    have hlen : q1.length = q.length := by
      rw [← hq1', elapse_mins_length, mcRun_length]
    have hq1ne : q1.length ≠ 1 := by omega
    have hfind1 : cacheFind (round4 gap2, q1.length) c1 = some v1 := by
      rw [← hc1, hlen, ← hkey, cacheFind, if_pos rfl, hv1]
    rw [pdt_hit draws gap2 n_samples q1 c1 r1 v1 hq1ne hfind1] at h2
    simp only [Except.ok.injEq, Prod.mk.injEq] at h2
    exact ⟨h2.1.symm, by omega, h2.2.2.2.symm, h2.2.1.symm, h2.2.2.1.symm⟩

/-- Witness for C7: a two-cop pool, one sample, gap 7 — the first call runs
the sampler and caches `1`, the second call returns the cached `1`. -/
theorem p_driver_ticketed_cache_idempotent_witness :
    (2 ≤ ([⟨1, 0⟩, ⟨2, 0⟩] : List Cop).length) ∧
    ((1 : ℚ) = 1 ∧ 1 ≤ 0 + 1 ∧ 1 = 1 ∧
      ([⟨2, 0⟩, ⟨1, 0⟩] : List Cop) = [⟨2, 0⟩, ⟨1, 0⟩] ∧
      ([((round4 7, 2), (1 : ℚ))] : Cache) = [((round4 7, 2), (1 : ℚ))]) := by
  refine ⟨by norm_num, ?_⟩
  refine p_driver_ticketed_cache_idempotent (fun _ _ => 0) 1 7 7
    [⟨1, 0⟩, ⟨2, 0⟩] [⟨2, 0⟩, ⟨1, 0⟩] [⟨2, 0⟩, ⟨1, 0⟩]
    [] [((round4 7, 2), 1)] [((round4 7, 2), 1)] 0 1 1 1 1
    (by norm_num) rfl ?_ ?_
  · rw [pdt_miss (fun _ _ => 0) 7 1 [⟨1, 0⟩, ⟨2, 0⟩] [] 0 (by norm_num) (by simp)
      (by norm_num) rfl]
    norm_num [mcRun, elapse_mins, elapseAux, is_available, issue_ticket, INF,
      ticketing_time_mins]
  · exact pdt_hit (fun _ _ => 0) 7 1 [⟨2, 0⟩, ⟨1, 0⟩] [((round4 7, 2), 1)] 1 1
      (by norm_num) (by simp [cacheFind])

/-! ## Evaluating Monte Carlo runs (helper lemmas) -/

/-- Splitting a Monte Carlo run: `a + b` samples are `a` samples followed by
`b` samples from the state the first `a` left behind. -/
theorem mcRun_split (d : ℕ → ℚ) (gap : ℚ) (a b : ℕ) :
    ∀ (i : ℕ) (q : List Cop) (nt : ℕ),
    mcRun d gap i (a + b) q nt =
      mcRun d gap (i + a) b (mcRun d gap i a q nt).2 (mcRun d gap i a q nt).1 := by
  induction a with
  | zero => intro i q nt; simp [mcRun]
  | succ a ih =>
    intro i q nt
    rw [show a + 1 + b = (a + b) + 1 by omega, show i + (a + 1) = (i + 1) + a by omega]
    simp only [mcRun]
    split
    · exact ih (i + 1) _ _
    · exact ih (i + 1) _ _

/-- Once every remaining draw is zero, a queue that is unchanged by a
zero-minute elapse and whose front cop is busy absorbs the rest of the run:
no further driver is ticketed and the queue never changes. -/
theorem mcRun_stall (d : ℕ → ℚ) (gap : ℚ) (q : List Cop) (i0 : ℕ)
    (hd : ∀ i, i0 ≤ i → d i = 0)
    (hstall : elapse_mins 0 q = q) (hbusy : is_available q = false) :
    ∀ (k i : ℕ), i0 ≤ i → ∀ nt, mcRun d gap i k q nt = (nt, q) := by
  intro k
  induction k with
  | zero => intro i _ nt; rfl
  | succ k ih =>
    intro i hi nt
    simp only [mcRun, hd i hi, zero_mul, hstall, hbusy, Bool.false_eq_true, if_false]
    exact ih (i + 1) (by omega) nt

/-- With every draw equal to `1` and a 40-minute gap, a two-cop pool in the
"front free, back just ticketed" configuration tickets every driver, swapping
the two cops each sample: an even number of samples returns to the same
configuration. -/
theorem mcRun_ones_pair (a b : ℕ) : ∀ (k i nt : ℕ),
    mcRun (fun _ => (1 : ℚ)) 40 i (2 * k) [⟨a, 0⟩, ⟨b, 15⟩] nt =
      (nt + 2 * k, [⟨a, 0⟩, ⟨b, 15⟩]) := by
  intro k
  induction k with
  | zero => intro i nt; simp [mcRun]
  | succ k ih =>
    intro i nt
    rw [show 2 * (k + 1) = 2 * k + 1 + 1 by omega]
    simp only [mcRun]
    have e1 : elapse_mins ((1 : ℚ) * 40) [⟨a, 0⟩, ⟨b, 15⟩] = [⟨a, 0⟩, ⟨b, 0⟩] := by
      norm_num [elapse_mins, elapseAux, max_eq_left]
    have e2 : elapse_mins (40 : ℚ) [⟨b, 0⟩, ⟨a, 15⟩] = [⟨b, 0⟩, ⟨a, 0⟩] := by
      norm_num [elapse_mins, elapseAux, max_eq_left]
    rw [e1]
    norm_num [is_available, issue_ticket, ticketing_time_mins]
    rw [e2]
    norm_num [is_available, issue_ticket, ticketing_time_mins]
    rw [ih (i + 1 + 1) (nt + 1 + 1)]
    simp only [Prod.mk.injEq]
    constructor
    · omega
    · trivial

/-- The rounded cache key of the 40-minute gap. -/
theorem round4_forty : round4 40 = 40 := by
  rw [round4, show ((40 : ℚ) * 10000) = ((400000 : ℕ) : ℚ) by norm_num, round_natCast]
  norm_num

/-! ## C9 — the estimate cache is shared between instances -/

/-- The draw oracle for the cross-instance experiment: the first sampling
loop sees the constant draw `1`, every later loop the constant draw `0`. -/
def draws9 : ℕ → ℕ → ℚ := fun r _ => if r = 0 then 1 else 0

/-- C9 counterexample: the cache is a class attribute, so independent `Cops`
instances share it.  Instance A (cops 1, 2) computes and caches the estimate
`1` for key `(40, 2)`; a separately constructed instance B (cops 3, 4) then
returns A's cached `1` for the same key without sampling — even though B's
own sampling loop (same call, empty cache) would have produced `1/5000`.
B's result is therefore determined by A's cached value, refuting the claim. -/
theorem p_driver_ticketed_cross_instance_counterexample :
    p_driver_ticketed draws9 40 n_samples_default [⟨1, 0⟩, ⟨2, 0⟩] [] 0 =
      .ok (1, [⟨1, 0⟩, ⟨2, 0⟩], [((40, 2), 1)], 1) ∧
    p_driver_ticketed draws9 40 n_samples_default [⟨3, 0⟩, ⟨4, 0⟩] [((40, 2), 1)] 1 =
      .ok (1, [⟨3, 0⟩, ⟨4, 0⟩], [((40, 2), 1)], 1) ∧
    p_driver_ticketed draws9 40 n_samples_default [⟨3, 0⟩, ⟨4, 0⟩] [] 1 =
      .ok (1 / 5000, [⟨3, 0⟩, ⟨4, 0⟩], [((40, 2), 1 / 5000)], 2) ∧
    (1 : ℚ) ≠ 1 / 5000 := by
  have hones : ∀ i, draws9 0 i = 1 := fun i => rfl
  have hzeros : ∀ i, (0 : ℕ) ≤ i → draws9 1 i = 0 := fun i _ => rfl
  refine ⟨?_, ?_, ?_, by norm_num⟩
  · -- instance A: every sample tickets, p = 10000/10000 = 1
    have hrun : mcRun (draws9 0) 40 0 n_samples_default [⟨1, 0⟩, ⟨2, 0⟩] 0 =
        (10000, [⟨1, 0⟩, ⟨2, 15⟩]) := by
      have hd : draws9 0 = fun _ => (1 : ℚ) := funext hones
      rw [hd, show n_samples_default = 1 + 1 + 2 * 4999 by norm_num [n_samples_default],
        mcRun_split, mcRun_split]
      have s1 : mcRun (fun _ => (1 : ℚ)) 40 0 1 [⟨1, 0⟩, ⟨2, 0⟩] 0 =
          (1, [⟨2, 0⟩, ⟨1, 15⟩]) := by
        simp only [mcRun]
        norm_num [elapse_mins, elapseAux, is_available, issue_ticket, ticketing_time_mins]
      rw [s1]
      have s2 : mcRun (fun _ => (1 : ℚ)) 40 (0 + 1) 1 [⟨2, 0⟩, ⟨1, 15⟩] 1 =
          (2, [⟨1, 0⟩, ⟨2, 15⟩]) := by
        simp only [mcRun]
        have e : elapse_mins ((1 : ℚ) * 40) [⟨2, 0⟩, ⟨1, 15⟩] = [⟨2, 0⟩, ⟨1, 0⟩] := by
          norm_num [elapse_mins, elapseAux, max_eq_left]
        rw [e]
        norm_num [is_available, issue_ticket, ticketing_time_mins]
      rw [s2, mcRun_ones_pair]
    rw [pdt_miss draws9 40 n_samples_default [⟨1, 0⟩, ⟨2, 0⟩] [] 0 (by norm_num) (by simp)
      (by norm_num [n_samples_default]) (by rw [round4_forty]; rfl)]
    rw [hrun]
    have hflush : elapse_mins INF [⟨1, 0⟩, ⟨2, 15⟩] = [⟨1, 0⟩, ⟨2, 0⟩] := by
      norm_num [elapse_mins, elapseAux, INF, max_eq_left]
    rw [hflush]
    norm_num [n_samples_default, round4_forty]
  · -- instance B after A: pure cache hit
    exact pdt_hit draws9 40 n_samples_default [⟨3, 0⟩, ⟨4, 0⟩] [((40, 2), 1)] 1 1
      (by norm_num) (by rw [round4_forty]; simp [cacheFind])
  · -- instance B from an empty cache: its own sampler gives 1/5000
    have hrun : mcRun (draws9 1) 40 0 n_samples_default [⟨3, 0⟩, ⟨4, 0⟩] 0 =
        (2, [⟨3, 15⟩, ⟨4, 15⟩]) := by
      rw [show n_samples_default = 1 + 1 + 9998 by norm_num [n_samples_default],
        mcRun_split, mcRun_split]
      have s1 : mcRun (draws9 1) 40 0 1 [⟨3, 0⟩, ⟨4, 0⟩] 0 =
          (1, [⟨4, 0⟩, ⟨3, 15⟩]) := by
        simp only [mcRun, draws9]
        norm_num [elapse_mins, elapseAux, is_available, issue_ticket, ticketing_time_mins]
      rw [s1]
      have s2 : mcRun (draws9 1) 40 (0 + 1) 1 [⟨4, 0⟩, ⟨3, 15⟩] 1 =
          (2, [⟨3, 15⟩, ⟨4, 15⟩]) := by
        simp only [mcRun, draws9]
        norm_num [elapse_mins, elapseAux, is_available, issue_ticket, ticketing_time_mins,
          max_eq_left]
      rw [s2]
      exact mcRun_stall (draws9 1) 40 [⟨3, 15⟩, ⟨4, 15⟩] 0 hzeros
        (by norm_num [elapse_mins, elapseAux, max_eq_left]) rfl 9998 (0 + 1 + 1) (by omega) 2
    rw [pdt_miss draws9 40 n_samples_default [⟨3, 0⟩, ⟨4, 0⟩] [] 1 (by norm_num) (by simp)
      (by norm_num [n_samples_default]) (by rw [round4_forty]; rfl)]
    rw [hrun]
    have hflush : elapse_mins INF [⟨3, 15⟩, ⟨4, 15⟩] = [⟨3, 0⟩, ⟨4, 0⟩] := by
      norm_num [elapse_mins, elapseAux, INF, max_eq_left]
    rw [hflush]
    norm_num [n_samples_default, round4_forty]

/-- C9 amended: because the cache is class-level shared state, any successful
estimate by one instance fully determines what a second instance of the same
queue length returns for the same rounded key: the second instance answers
from the first instance's cache entry, runs no sampling loop of its own, and
changes nothing. -/
theorem p_driver_ticketed_cache_shared (draws : ℕ → ℕ → ℚ) (n_samples : ℕ) (gap : ℚ)
    (qA qB : List Cop) (cache c' : Cache) (runs r' : ℕ) (v : ℚ) (qA' : List Cop)
    (hA : 2 ≤ qA.length) (hB : qB.length = qA.length)
    (h1 : p_driver_ticketed draws gap n_samples qA cache runs = .ok (v, qA', c', r')) :
    p_driver_ticketed draws gap n_samples qB c' r' = .ok (v, qB, c', r') := by
  have hqA1 : qA.length ≠ 1 := by omega
  have hqB1 : qB.length ≠ 1 := by omega
  have hqA0 : qA ≠ [] := by
    cases qA with
    | nil => simp at hA
    | cons c t => simp
  have hfound : cacheFind (round4 gap, qB.length) c' = some v := by
    rw [hB]
    cases hfind : cacheFind (round4 gap, qA.length) cache with
    | some w =>
      rw [pdt_hit draws gap n_samples qA cache runs w hqA1 hfind] at h1
      simp only [Except.ok.injEq, Prod.mk.injEq] at h1
      rw [← h1.2.2.1, hfind, h1.1]
    | none =>
      have hnS : n_samples ≠ 0 := by
        intro h0
        subst h0
        rw [pdt_zero_samples draws gap qA cache runs hqA1 hfind] at h1
        exact absurd h1 (by simp)
      rw [pdt_miss draws gap n_samples qA cache runs hqA1 hqA0 hnS hfind] at h1
      simp only [Except.ok.injEq, Prod.mk.injEq] at h1
      rw [← h1.2.2.1, cacheFind, if_pos rfl, h1.1]
  exact pdt_hit draws gap n_samples qB c' r' v hqB1 hfound

/-- Witness for C9's amended statement: instance A (cops 1, 2) fills the
cache with one sample at gap 7; instance B (cops 3, 4) then returns the
cached value untouched. -/
theorem p_driver_ticketed_cache_shared_witness :
    p_driver_ticketed (fun _ _ => 0) 7 1 [⟨3, 0⟩, ⟨4, 0⟩] [((round4 7, 2), 1)] 1 =
      .ok (1, [⟨3, 0⟩, ⟨4, 0⟩], [((round4 7, 2), 1)], 1) := by
  refine p_driver_ticketed_cache_shared (fun _ _ => 0) 1 7
    [⟨1, 0⟩, ⟨2, 0⟩] [⟨3, 0⟩, ⟨4, 0⟩] [] [((round4 7, 2), 1)] 0 1 1 [⟨2, 0⟩, ⟨1, 0⟩]
    (by norm_num) (by norm_num) ?_
  rw [pdt_miss (fun _ _ => 0) 7 1 [⟨1, 0⟩, ⟨2, 0⟩] [] 0 (by norm_num) (by simp)
    (by norm_num) rfl]
  norm_num [mcRun, elapse_mins, elapseAux, is_available, issue_ticket, INF,
    ticketing_time_mins]

/-! ## State preservation through the estimator and revenue calls -/

/-- A successful `p_driver_ticketed` call returns a queue of the same
length. -/
theorem pdt_length (draws : ℕ → ℕ → ℚ) (gap : ℚ) (nS : ℕ) (q : List Cop)
    (cache : Cache) (runs : ℕ) (v : ℚ) (q' : List Cop) (c' : Cache) (r' : ℕ)
    (h : p_driver_ticketed draws gap nS q cache runs = .ok (v, q', c', r')) :
    q'.length = q.length := by
  by_cases hq1 : q.length = 1
  · unfold p_driver_ticketed at h
    rw [if_pos hq1] at h
    split at h
    · simp at h
    · simp only [Except.ok.injEq, Prod.mk.injEq] at h
      rw [← h.2.1]
  · cases hfind : cacheFind (round4 gap, q.length) cache with
    | some w =>
      rw [pdt_hit draws gap nS q cache runs w hq1 hfind] at h
      simp only [Except.ok.injEq, Prod.mk.injEq] at h
      rw [← h.2.1]
    | none =>
      by_cases hnS : nS = 0
      · subst hnS
        rw [pdt_zero_samples draws gap q cache runs hq1 hfind] at h
        simp at h
      · by_cases hq0 : q = []
        · subst hq0
          unfold p_driver_ticketed at h
          simp only [if_neg hq1, hfind, if_neg hnS] at h
          simp at h
        · rw [pdt_miss draws gap nS q cache runs hq1 hq0 hnS hfind] at h
          simp only [Except.ok.injEq, Prod.mk.injEq] at h
          rw [← h.2.1, elapse_mins_length, mcRun_length]

/-- A revenue computation only touches the cop queue (same length), the
cache and the run counter: profiles and targets pass through unchanged. -/
theorem get_revenue_preserves (draws : ℕ → ℕ → ℚ) (tp tp' : TrafficPattern) (r : ℚ)
    (h : get_revenue_per_hour draws tp = .ok (r, tp')) :
    tp'.driver_profiles = tp.driver_profiles ∧
    tp'.target_profiles = tp.target_profiles ∧
    tp'.target_profile = tp.target_profile ∧
    tp'.cop_counter = tp.cop_counter ∧
    tp'.cops.length = tp.cops.length := by
  unfold get_revenue_per_hour at h
  cases hp : p_driver_ticketed draws tp.target_profile.mins_between_drivers n_samples_default
      tp.cops tp.cache tp.runs with
  | error e => rw [hp] at h; simp at h
  | ok x =>
    obtain ⟨p, q, cache, runs⟩ := x
    rw [hp] at h
    simp only [Except.ok.injEq, Prod.mk.injEq] at h
    rw [← h.2]
    exact ⟨rfl, rfl, rfl, rfl,
      pdt_length draws tp.target_profile.mins_between_drivers n_samples_default
        tp.cops tp.cache tp.runs p q cache runs hp⟩

/-! ## The target set stays a prefix of the sorted profile list -/

/-- Extending a proper prefix by the next profile of the list keeps it a
prefix. -/
theorem prefix_append_getD (l P : List DriverProfile) (hp : l <+: P)
    (hlen : l.length < P.length) :
    l ++ [P.getD l.length DriverProfile.null] <+: P := by
  obtain ⟨t, rfl⟩ := hp
  cases t with
  | nil => simp at hlen
  | cons x t' =>
    have hx : (l ++ x :: t').getD l.length DriverProfile.null = x := by
      rw [List.getD_eq_getElem?_getD, List.getElem?_append_right (le_refl _)]
      simp
    rw [hx]
    exact ⟨t', by simp⟩

/-- The greedy target-profile loop preserves the prefix invariant and never
touches the profile list. -/
theorem optTargetLoop_prefix (draws : ℕ → ℕ → ℚ) :
    ∀ (fuel : ℕ) (maxRev : ℚ) (tp tpF : TrafficPattern),
    tp.target_profiles <+: tp.driver_profiles →
    optTargetLoop draws maxRev tp fuel = .ok tpF →
    tpF.target_profiles <+: tpF.driver_profiles ∧
      tpF.driver_profiles = tp.driver_profiles := by
  intro fuel
  induction fuel with
  | zero =>
    intro mr tp tpF hpre h
    simp only [optTargetLoop, Except.ok.injEq] at h
    rw [← h]
    exact ⟨hpre, rfl⟩
  | succ fuel ih =>
    intro mr tp tpF hpre h
    simp only [optTargetLoop] at h
    cases hr : get_revenue_per_hour draws tp with
    | error e => rw [hr] at h; simp at h
    | ok x =>
      obtain ⟨rev, tp1⟩ := x
      rw [hr] at h
      obtain ⟨hd1, ht1, -, -, -⟩ := get_revenue_preserves draws tp tp1 rev hr
      simp only [] at h
      split at h
      · -- accepted: recompute revenue, append the next profile, recurse
        rename_i hcond
        cases hr2 : get_revenue_per_hour draws tp1 with
        | error e => rw [hr2] at h; simp at h
        | ok y =>
          obtain ⟨rev2, tp2⟩ := y
          rw [hr2] at h
          simp only [] at h
          obtain ⟨hd2, ht2, -, -, -⟩ := get_revenue_preserves draws tp1 tp2 rev2 hr2
          have hpre2 : tp2.target_profiles <+: tp2.driver_profiles := by
            rw [hd2, ht2, hd1, ht1]; exact hpre
          have hlen2 : tp2.target_profiles.length < tp2.driver_profiles.length := by
            rw [hd2, ht2]; exact hcond.2
          obtain ⟨hf, hfd⟩ := ih rev2 _ tpF (by
            show (tp2.target_profiles ++ [_]) <+: tp2.driver_profiles
            exact prefix_append_getD _ _ hpre2 hlen2) h
          refine ⟨hf, ?_⟩
          rw [hfd]
          show tp2.driver_profiles = tp.driver_profiles
          rw [hd2, hd1]
      · -- rejected: one more revenue call, possibly pop the last profile
        cases hr2 : get_revenue_per_hour draws tp1 with
        | error e => rw [hr2] at h; simp at h
        | ok y =>
          obtain ⟨revF, tp2⟩ := y
          rw [hr2] at h
          simp only [] at h
          obtain ⟨hd2, ht2, -, -, -⟩ := get_revenue_preserves draws tp1 tp2 revF hr2
          have hpre2 : tp2.target_profiles <+: tp2.driver_profiles := by
            rw [hd2, ht2, hd1, ht1]; exact hpre
          split at h
          · simp only [Except.ok.injEq] at h
            rw [← h]
            refine ⟨?_, ?_⟩
            · show tp2.target_profiles.dropLast <+: tp2.driver_profiles
              exact (List.dropLast_prefix _).trans hpre2
            · show tp2.driver_profiles = tp.driver_profiles
              rw [hd2, hd1]
          · simp only [Except.ok.injEq] at h
            rw [← h]
            exact ⟨hpre2, by rw [hd2, hd1]⟩

/-- `optimize_on_target_profiles` preserves the prefix invariant. -/
theorem optimize_on_target_profiles_prefix (draws : ℕ → ℕ → ℚ) (tp tpF : TrafficPattern)
    (hpre : tp.target_profiles <+: tp.driver_profiles)
    (h : optimize_on_target_profiles draws tp = .ok tpF) :
    tpF.target_profiles <+: tpF.driver_profiles ∧
      tpF.driver_profiles = tp.driver_profiles :=
  optTargetLoop_prefix draws _ _ tp tpF hpre h

/-- The cop-count loop preserves the prefix invariant and never touches the
profile list. -/
theorem optNCopsLoop_prefix (draws : ℕ → ℕ → ℚ) :
    ∀ (fuel : ℕ) (maxRev : ℚ) (tp tpF : TrafficPattern),
    tp.target_profiles <+: tp.driver_profiles →
    optNCopsLoop draws maxRev tp fuel = .ok tpF →
    tpF.target_profiles <+: tpF.driver_profiles ∧
      tpF.driver_profiles = tp.driver_profiles := by
  intro fuel
  induction fuel with
  | zero =>
    intro mr tp tpF hpre h
    simp only [optNCopsLoop, Except.ok.injEq] at h
    rw [← h]
    exact ⟨hpre, rfl⟩
  | succ fuel ih =>
    intro mr tp tpF hpre h
    simp only [optNCopsLoop] at h
    cases hr : get_revenue_per_hour draws tp with
    | error e => rw [hr] at h; simp at h
    | ok x =>
      obtain ⟨rev, tp1⟩ := x
      rw [hr] at h
      obtain ⟨hd1, ht1, -, -, -⟩ := get_revenue_preserves draws tp tp1 rev hr
      simp only [] at h
      split at h
      · -- accepted: recompute, add one cop, re-optimize targets, recurse
        cases hr2 : get_revenue_per_hour draws tp1 with
        | error e => rw [hr2] at h; simp at h
        | ok y =>
          obtain ⟨rev2, tp2⟩ := y
          rw [hr2] at h
          simp only [] at h
          obtain ⟨hd2, ht2, -, -, -⟩ := get_revenue_preserves draws tp1 tp2 rev2 hr2
          cases h3 : optimize_on_target_profiles draws
              { tp2 with cops := (copsIAdd tp2.cop_counter 1 tp2.cops).1,
                         cop_counter := (copsIAdd tp2.cop_counter 1 tp2.cops).2 } with
          | error e => rw [h3] at h; simp at h
          | ok tp3 =>
            rw [h3] at h
            obtain ⟨hp3, hd3⟩ := optimize_on_target_profiles_prefix draws _ tp3 (by
              show tp2.target_profiles <+: tp2.driver_profiles
              rw [hd2, ht2, hd1, ht1]; exact hpre) h3
            obtain ⟨hf, hfd⟩ := ih rev2 tp3 tpF hp3 h
            refine ⟨hf, ?_⟩
            rw [hfd, hd3]
            show tp2.driver_profiles = tp.driver_profiles
            rw [hd2, hd1]
      · -- rejected: roll the cop count back; targets stay as the loop left
        -- them (the aliased "rollback" of the list is a no-op)
        cases hs : copsISub 1 tp1.cops with
        | mk res q =>
          rw [hs] at h
          cases res with
          | error e => simp at h
          | ok u =>
            simp only [Except.ok.injEq] at h
            rw [← h]
            refine ⟨?_, ?_⟩
            · show tp1.target_profiles <+: tp1.driver_profiles
              rw [hd1, ht1]; exact hpre
            · show tp1.driver_profiles = tp.driver_profiles
              rw [hd1]


/-! ## Whole-program runs -/

/-- Construct a `TrafficPattern` and run the full two-level optimizer
(`TrafficPattern(...)` followed by `optimize_on_n_cops()`). -/
def run_optimizer (draws : ℕ → ℕ → ℚ) (counter : ℕ) (cache : Cache) (runs : ℕ)
    (driver_profiles : List DriverProfile) (fuel : ℕ) : Except String TrafficPattern :=
  match TrafficPattern.init counter cache runs driver_profiles with
  | .error e => .error e
  | .ok tp => optimize_on_n_cops draws tp fuel

/-- Construct a `TrafficPattern` and run only the target-set optimization at
the initial one-cop pool (`TrafficPattern(...)` followed by
`optimize_on_target_profiles()`). -/
def run_target_optimizer (draws : ℕ → ℕ → ℚ) (counter : ℕ) (cache : Cache) (runs : ℕ)
    (driver_profiles : List DriverProfile) : Except String TrafficPattern :=
  match TrafficPattern.init counter cache runs driver_profiles with
  | .error e => .error e
  | .ok tp => optimize_on_target_profiles draws tp

/-- The target-profile list of a finished run (empty on error). -/
def final_target_profiles : Except String TrafficPattern → List DriverProfile
  | .ok tp => tp.target_profiles
  | .error _ => []

/-- The pool size of a finished run (zero on error). -/
def final_n_cops : Except String TrafficPattern → ℕ
  | .ok tp => tp.cops.length
  | .error _ => 0

/-! ## C5 — targets are always a prefix of the severity-sorted profiles -/

/-- C5: for every successful full-optimizer run, the final target-profile
list is a prefix of the pattern's profile list, and that profile list is the
input profiles sorted in descending severity (so the optimizer never selects
a less severe profile while omitting a more severe one).  The loop lemmas
`optTargetLoop_prefix` and `optNCopsLoop_prefix` show the invariant holds at
every intermediate state of both optimizers as well. -/
theorem optimizer_target_prefix (draws : ℕ → ℕ → ℚ) (counter : ℕ) (cache : Cache)
    (runs : ℕ) (ps : List DriverProfile) (fuel : ℕ) (tpF : TrafficPattern)
    (h : run_optimizer draws counter cache runs ps fuel = .ok tpF) :
    tpF.target_profiles <+: tpF.driver_profiles ∧
    tpF.driver_profiles = sortBySeverityDesc ps ∧
    List.Pairwise (fun a b => b.mph_over_limit ≤ a.mph_over_limit) tpF.driver_profiles := by
  unfold run_optimizer at h
  cases hinit : TrafficPattern.init counter cache runs ps with
  | error e => rw [hinit] at h; simp at h
  | ok tp0 =>
    rw [hinit] at h
    simp only [] at h
    have h0 : tp0.target_profiles = [] ∧ tp0.driver_profiles = sortBySeverityDesc ps := by
      unfold TrafficPattern.init at hinit
      split at hinit
      · simp at hinit
      · simp only [Except.ok.injEq] at hinit
        rw [← hinit]
        exact ⟨rfl, rfl⟩
    unfold optimize_on_n_cops at h
    cases h1 : optimize_on_target_profiles draws tp0 with
    | error e => rw [h1] at h; simp at h
    | ok tp1 =>
      rw [h1] at h
      simp only [] at h
      obtain ⟨hp1, hd1⟩ := optimize_on_target_profiles_prefix draws tp0 tp1
        (by rw [h0.1]; exact List.nil_prefix) h1
      obtain ⟨hpF, hdF⟩ := optNCopsLoop_prefix draws fuel _ tp1 tpF hp1 h
      have hsorted : tpF.driver_profiles = sortBySeverityDesc ps := by
        rw [hdF, hd1, h0.2]
      refine ⟨hpF, hsorted, ?_⟩
      rw [hsorted]
      unfold sortBySeverityDesc
      have hpair := @List.sorted_mergeSort DriverProfile
        (fun a b : DriverProfile => decide (b.mph_over_limit ≤ a.mph_over_limit))
        (fun a b c h1 h2 => by
          simp only [decide_eq_true_eq] at h1 h2 ⊢
          exact le_trans h2 h1)
        (fun a b => by
          simp only [Bool.or_eq_true, decide_eq_true_eq]
          exact le_total b.mph_over_limit a.mph_over_limit)
        ps
      exact hpair.imp fun hab => by simpa using hab

/-- The profile used by the C5 witness run. -/
def pW : DriverProfile := DriverProfile.ofRaw 20 40

/-- The state the C5 witness run ends in: one cop, the single profile
targeted, the aggregate built by extending the null profile. -/
def tpW : TrafficPattern :=
  { cops := [⟨1, 0⟩]
    cop_counter := 1
    driver_profiles := [pW]
    total_profile := pW
    profile_weights := [pW.drivers_per_min / pW.drivers_per_min]
    target_profiles := [pW]
    target_profile := DriverProfile.null.add pW
    cache := []
    runs := 0 }

/-- Witness for C5: a one-profile pattern optimized with zero loop fuel for
the cop search (so only the target-set optimization runs); the final target
list `[pW]` is a prefix of the sorted profile list `[pW]`. -/
theorem optimizer_target_prefix_witness :
    tpW.target_profiles <+: tpW.driver_profiles ∧
    tpW.driver_profiles = sortBySeverityDesc [pW] ∧
    List.Pairwise (fun a b => b.mph_over_limit ≤ a.mph_over_limit) tpW.driver_profiles := by
  refine optimizer_target_prefix (fun _ _ => 0) 0 [] 0 [pW] 0 tpW ?_
  have hsort : ∀ p : DriverProfile, sortBySeverityDesc [p] = [p] := fun p => by
    unfold sortBySeverityDesc
    exact List.mergeSort_of_sorted (by simp)
  norm_num [run_optimizer, TrafficPattern.init, hsort, mkCops, reduceAdd,
    optimize_on_n_cops, optimize_on_target_profiles, optTargetLoop, optNCopsLoop,
    get_revenue_per_hour, get_cost_per_hour, p_driver_ticketed, n_samples_default,
    tpW, pW, DriverProfile.null, DriverProfile.ofRaw, DriverProfile.add, INF,
    ticketing_time_mins, dollar_cost_per_hour]

/-! ## C1 — the roll-back in `optimize_on_n_cops` fails to restore the
target set -/

/-- The most severe profile of the C1 scenario: 20 mph over, 40-minute
gaps. -/
def pP1 : DriverProfile := DriverProfile.ofRaw 20 40

/-- The mild, high-rate profile of the C1 scenario: 1 mph over, 1-minute
gaps. -/
def pP2 : DriverProfile := DriverProfile.ofRaw 1 1

/-- The draw oracle of the C1 scenario.  The first sampling loop (run 0, at
two cops for the gap-40 aggregate) alternates long and zero gaps for six
samples and then stalls: 6 of 10000 drivers ticketed.  The second loop
(run 1, for the gap-40/41 aggregate) tickets its first two drivers and then
stalls: 2 of 10000.  The resulting estimates satisfy
`(3/5000)·300 = (1/5000)·900`, making the cop increment exactly
revenue-neutral for the grown target set. -/
def dBug : ℕ → ℕ → ℚ := fun r i =>
  if r = 0 then (if i < 6 ∧ i % 2 = 0 then 1 else 0)
  else if r = 1 then (if i = 0 then 41 else 0)
  else 0

/-- The rounded cache key of the 40/41-minute gap. -/
theorem round4_fortyOne : round4 (40 / 41) = 2439 / 2500 := by
  rw [round4, show (40 / 41 : ℚ) * 10000 = 400000 / 41 by norm_num, round_eq,
    show (400000 / 41 : ℚ) + 1 / 2 = 800041 / 82 by norm_num,
    show ⌊(800041 / 82 : ℚ)⌋ = 9756 by rw [Int.floor_eq_iff] <;> norm_num]
  norm_num

/-- Run 0 of the C1 scenario: 6 of 10000 drivers ticketed, both cops left
busy. -/
theorem mcBug0 : mcRun (dBug 0) 40 0 10000 [⟨1, 0⟩, ⟨2, 0⟩] 0 =
    (6, [⟨1, 15⟩, ⟨2, 15⟩]) := by
  rw [show (10000 : ℕ) = 6 + 9994 by norm_num, mcRun_split]
  have h6 : mcRun (dBug 0) 40 0 6 [⟨1, 0⟩, ⟨2, 0⟩] 0 = (6, [⟨1, 15⟩, ⟨2, 15⟩]) := by
    norm_num [mcRun, dBug, elapse_mins, elapseAux, is_available, issue_ticket,
      ticketing_time_mins, max_eq_left, max_eq_right]
  rw [h6]
  exact mcRun_stall (dBug 0) 40 [⟨1, 15⟩, ⟨2, 15⟩] 6
    (fun i hi => by
      have h1 : ¬(i < 6 ∧ i % 2 = 0) := by omega
      simp [dBug, h1])
    (by norm_num [elapse_mins, elapseAux, max_eq_right])
    (by norm_num [is_available]) 9994 (0 + 6) (by omega) 6

/-- Run 1 of the C1 scenario: 2 of 10000 drivers ticketed, both cops left
busy. -/
theorem mcBug1 : mcRun (dBug 1) (40 / 41) 0 10000 [⟨1, 0⟩, ⟨2, 0⟩] 0 =
    (2, [⟨1, 15⟩, ⟨2, 15⟩]) := by
  rw [show (10000 : ℕ) = 2 + 9998 by norm_num, mcRun_split]
  have h2 : mcRun (dBug 1) (40 / 41) 0 2 [⟨1, 0⟩, ⟨2, 0⟩] 0 = (2, [⟨1, 15⟩, ⟨2, 15⟩]) := by
    norm_num [mcRun, dBug, elapse_mins, elapseAux, is_available, issue_ticket,
      ticketing_time_mins, max_eq_left, max_eq_right]
  rw [h2]
  exact mcRun_stall (dBug 1) (40 / 41) [⟨1, 15⟩, ⟨2, 15⟩] 2
    (fun i hi => by
      have h1 : i ≠ 0 := by omega
      simp [dBug, h1])
    (by norm_num [elapse_mins, elapseAux, max_eq_right])
    (by norm_num [is_available]) 9998 (0 + 2) (by omega) 2

/-- The estimator-state evaluation rule for `get_revenue_per_hour`: once the
projections of the pattern and the estimator result are known, the revenue
call is determined. -/
theorem getRev_eval (draws : ℕ → ℕ → ℚ) (tp : TrafficPattern) (gap p : ℚ)
    (q q' : List Cop) (c c' : Cache) (r r' : ℕ)
    (hgap : tp.target_profile.mins_between_drivers = gap)
    (hq : tp.cops = q) (hc : tp.cache = c) (hr : tp.runs = r)
    (hpdt : p_driver_ticketed draws gap n_samples_default q c r = .ok (p, q', c', r')) :
    get_revenue_per_hour draws tp =
      .ok (p * tp.target_profile.revenue_opportunity_per_hour -
            dollar_cost_per_hour * q.length,
           { tp with cops := q', cache := c', runs := r' }) := by
  unfold get_revenue_per_hour
  rw [hgap, hq, hc, hr, hpdt]
  rfl

/-- The C1 pattern right after `TrafficPattern.__init__`. -/
def tpBug0 : TrafficPattern :=
  { cops := [⟨1, 0⟩]
    cop_counter := 1
    driver_profiles := [pP1, pP2]
    total_profile := pP1.add pP2
    profile_weights := [pP1.drivers_per_min / (pP1.add pP2).drivers_per_min,
                        pP2.drivers_per_min / (pP1.add pP2).drivers_per_min]
    target_profiles := []
    target_profile := DriverProfile.null
    cache := []
    runs := 0 }

/-- After `optimize_on_target_profiles` at one cop: only `pP1` targeted
(adding `pP2` was tried and popped, the aggregate rebuilt by `reduce`). -/
def tpBug1 : TrafficPattern :=
  { tpBug0 with target_profiles := [pP1], target_profile := pP1 }

/-- After `cops += 1` inside the accepted loop iteration. -/
def tpBug2 : TrafficPattern :=
  { tpBug1 with cops := [⟨1, 0⟩, ⟨2, 0⟩], cop_counter := 2 }

/-- The cache entry the first sampling loop leaves behind. -/
def cBug1 : Cache := [((40, 2), 3 / 5000)]

/-- Both C1 cache entries after the second sampling loop. -/
def cBug2 : Cache := [((2439 / 2500, 2), 1 / 5000), ((40, 2), 3 / 5000)]

/-- After the first (cache-missing) revenue estimate at two cops. -/
def tpBug2a : TrafficPattern := { tpBug2 with cache := cBug1, runs := 1 }

/-- After the greedy loop appends `pP2` at two cops. -/
def tpBug2b : TrafficPattern :=
  { tpBug2a with target_profiles := [pP1, pP2], target_profile := pP1.add pP2 }

/-- After the second (cache-missing) revenue estimate at two cops: the state
the rejected `optimize_on_target_profiles` call returns. -/
def tpBug2c : TrafficPattern := { tpBug2b with cache := cBug2, runs := 2 }

/-- The final state of `optimize_on_n_cops`: the cop count rolled back to 1,
but the target set still the grown `[pP1, pP2]`. -/
def tpBugF : TrafficPattern := { tpBug2c with cops := [⟨1, 0⟩] }

/-- The two C1 profiles are already sorted by descending severity. -/
theorem sortBugPair : sortBySeverityDesc [pP1, pP2] = [pP1, pP2] :=
  List.mergeSort_of_sorted (by norm_num [pP1, pP2, DriverProfile.ofRaw])

/-- Constructing the C1 pattern. -/
theorem hInitBug : TrafficPattern.init 0 [] 0 [pP1, pP2] = .ok tpBug0 := by
  unfold TrafficPattern.init
  rw [if_neg (by norm_num)]
  simp only [mkCops, sortBugPair, reduceAdd, List.foldl, List.map, Except.ok.injEq]
  rfl

/-- The first two-cop estimate: cache miss, sampling loop run 0, estimate
`3/5000` cached under key `(40, 2)`. -/
theorem pdtBug0 : p_driver_ticketed dBug 40 n_samples_default [⟨1, 0⟩, ⟨2, 0⟩] [] 0 =
    .ok (3 / 5000, [⟨1, 0⟩, ⟨2, 0⟩], cBug1, 1) := by
  rw [pdt_miss dBug 40 n_samples_default [⟨1, 0⟩, ⟨2, 0⟩] [] 0 (by norm_num) (by simp)
    (by norm_num [n_samples_default]) (by rw [round4_forty]; rfl)]
  rw [show n_samples_default = 10000 from rfl, mcBug0]
  have hflush : elapse_mins INF [⟨1, 15⟩, ⟨2, 15⟩] = [⟨1, 0⟩, ⟨2, 0⟩] := by
    norm_num [elapse_mins, elapseAux, INF, max_eq_left]
  rw [round4_forty]
  norm_num [hflush, cBug1]

/-- The second two-cop estimate: cache miss for the key `(2439/2500, 2)`,
sampling loop run 1, estimate `1/5000` cached. -/
theorem pdtBug1 : p_driver_ticketed dBug (40 / 41) n_samples_default [⟨1, 0⟩, ⟨2, 0⟩]
    cBug1 1 = .ok (1 / 5000, [⟨1, 0⟩, ⟨2, 0⟩], cBug2, 2) := by
  rw [pdt_miss dBug (40 / 41) n_samples_default [⟨1, 0⟩, ⟨2, 0⟩] cBug1 1 (by norm_num)
    (by simp) (by norm_num [n_samples_default])
    (by rw [round4_fortyOne]; norm_num [cacheFind, cBug1])]
  rw [show n_samples_default = 10000 from rfl, mcBug1]
  have hflush : elapse_mins INF [⟨1, 15⟩, ⟨2, 15⟩] = [⟨1, 0⟩, ⟨2, 0⟩] := by
    norm_num [elapse_mins, elapseAux, INF, max_eq_left]
  rw [round4_fortyOne]
  norm_num [hflush, cBug1, cBug2]

/-- Re-querying the `(40, 2)` estimate is a cache hit. -/
theorem pdtBugHit1 : p_driver_ticketed dBug 40 n_samples_default [⟨1, 0⟩, ⟨2, 0⟩]
    cBug1 1 = .ok (3 / 5000, [⟨1, 0⟩, ⟨2, 0⟩], cBug1, 1) :=
  pdt_hit dBug 40 n_samples_default [⟨1, 0⟩, ⟨2, 0⟩] cBug1 1 (3 / 5000) (by norm_num)
    (by rw [round4_forty]; norm_num [cacheFind, cBug1])

/-- Re-querying the `(2439/2500, 2)` estimate is a cache hit. -/
theorem pdtBugHit2 : p_driver_ticketed dBug (40 / 41) n_samples_default [⟨1, 0⟩, ⟨2, 0⟩]
    cBug2 2 = .ok (1 / 5000, [⟨1, 0⟩, ⟨2, 0⟩], cBug2, 2) :=
  pdt_hit dBug (40 / 41) n_samples_default [⟨1, 0⟩, ⟨2, 0⟩] cBug2 2 (1 / 5000)
    (by norm_num) (by rw [round4_fortyOne]; norm_num [cacheFind, cBug2])

/-- Revenue of the `[pP1]` target set at one cop: the exact closed form,
`(8/11)·300 - 300 = -900/11`. -/
theorem hrevA : get_revenue_per_hour dBug tpBug1 = .ok (-900 / 11, tpBug1) := by
  have hpdt : p_driver_ticketed dBug 40 n_samples_default [⟨1, 0⟩] [] 0 =
      .ok (8 / 11, [⟨1, 0⟩], [], 0) := by
    unfold p_driver_ticketed
    norm_num [ticketing_time_mins]
  rw [getRev_eval dBug tpBug1 40 (8 / 11) [⟨1, 0⟩] [⟨1, 0⟩] [] [] 0 0 rfl rfl rfl rfl hpdt]
  have h1 : tpBug1.target_profile.revenue_opportunity_per_hour = 300 := by
    norm_num [tpBug1, tpBug0, pP1, DriverProfile.ofRaw]
  rw [h1]
  norm_num [dollar_cost_per_hour]
  rfl

/-- Revenue of `[pP1]` at two cops, clean cache: `(3/5000)·300 - 600`. -/
theorem hrevB : get_revenue_per_hour dBug tpBug2 = .ok (-29991 / 50, tpBug2a) := by
  rw [getRev_eval dBug tpBug2 40 (3 / 5000) [⟨1, 0⟩, ⟨2, 0⟩] [⟨1, 0⟩, ⟨2, 0⟩] [] cBug1
    0 1 rfl rfl rfl rfl pdtBug0]
  have h1 : tpBug2.target_profile.revenue_opportunity_per_hour = 300 := by
    norm_num [tpBug2, tpBug1, tpBug0, pP1, DriverProfile.ofRaw]
  rw [h1]
  norm_num [dollar_cost_per_hour]
  rfl

/-- The `max_revenue` re-query at two cops: a cache hit, same value. -/
theorem hrevC : get_revenue_per_hour dBug tpBug2a = .ok (-29991 / 50, tpBug2a) := by
  rw [getRev_eval dBug tpBug2a 40 (3 / 5000) [⟨1, 0⟩, ⟨2, 0⟩] [⟨1, 0⟩, ⟨2, 0⟩] cBug1
    cBug1 1 1 rfl rfl rfl rfl pdtBugHit1]
  have h1 : tpBug2a.target_profile.revenue_opportunity_per_hour = 300 := by
    norm_num [tpBug2a, tpBug2, tpBug1, tpBug0, pP1, DriverProfile.ofRaw]
  rw [h1]
  norm_num [dollar_cost_per_hour]
  rfl

/-- Revenue of the grown `[pP1, pP2]` set at two cops:
`(1/5000)·900 - 600`, exactly equal to `hrevB`'s value. -/
theorem hrevD : get_revenue_per_hour dBug tpBug2b = .ok (-29991 / 50, tpBug2c) := by
  rw [getRev_eval dBug tpBug2b (40 / 41) (1 / 5000) [⟨1, 0⟩, ⟨2, 0⟩] [⟨1, 0⟩, ⟨2, 0⟩]
    cBug1 cBug2 1 2 (by norm_num [tpBug2b, tpBug2a, tpBug2, tpBug1, tpBug0, pP1, pP2,
      DriverProfile.ofRaw, DriverProfile.add]) rfl rfl rfl pdtBug1]
  have h1 : tpBug2b.target_profile.revenue_opportunity_per_hour = 900 := by
    norm_num [tpBug2b, tpBug2a, tpBug2, tpBug1, tpBug0, pP1, pP2,
      DriverProfile.ofRaw, DriverProfile.add]
  rw [h1]
  norm_num [dollar_cost_per_hour]
  rfl

/-- The final and outer-loop re-queries of the grown set: cache hits. -/
theorem hrevE : get_revenue_per_hour dBug tpBug2c = .ok (-29991 / 50, tpBug2c) := by
  rw [getRev_eval dBug tpBug2c (40 / 41) (1 / 5000) [⟨1, 0⟩, ⟨2, 0⟩] [⟨1, 0⟩, ⟨2, 0⟩]
    cBug2 cBug2 2 2 (by norm_num [tpBug2c, tpBug2b, tpBug2a, tpBug2, tpBug1, tpBug0,
      pP1, pP2, DriverProfile.ofRaw, DriverProfile.add]) rfl rfl rfl pdtBugHit2]
  have h1 : tpBug2c.target_profile.revenue_opportunity_per_hour = 900 := by
    norm_num [tpBug2c, tpBug2b, tpBug2a, tpBug2, tpBug1, tpBug0, pP1, pP2,
      DriverProfile.ofRaw, DriverProfile.add]
  rw [h1]
  norm_num [dollar_cost_per_hour]
  rfl

/-- The target-set optimization at one cop selects exactly `[pP1]`. -/
theorem hPhase1 : optimize_on_target_profiles dBug tpBug0 = .ok tpBug1 := by
  norm_num [optimize_on_target_profiles, optTargetLoop, get_revenue_per_hour,
    get_cost_per_hour, p_driver_ticketed, n_samples_default, reduceAdd,
    tpBug0, tpBug1, pP1, pP2, DriverProfile.null, DriverProfile.ofRaw,
    DriverProfile.add, INF, ticketing_time_mins, dollar_cost_per_hour]

/-- The rejected target re-optimization at two cops grows the target set to
`[pP1, pP2]`: the extension is exactly revenue-neutral, so it is kept. -/
theorem hTP2 : optimize_on_target_profiles dBug tpBug2 = .ok tpBug2c := by
  unfold optimize_on_target_profiles
  rw [show tpBug2.driver_profiles.length + 2 = 3 + 1 from rfl]
  rw [optTargetLoop]
  rw [hrevB]
  simp only []
  rw [if_pos (⟨by norm_num [INF], by decide⟩ :
    (-29991 / 50 : ℚ) > -INF ∧
      tpBug2a.target_profiles.length < tpBug2a.driver_profiles.length)]
  rw [hrevC]
  simp only []
  rw [show ({ tpBug2a with
      target_profiles := tpBug2a.target_profiles ++
        [tpBug2a.driver_profiles.getD tpBug2a.target_profiles.length DriverProfile.null]
      target_profile := tpBug2a.target_profile.add
        (tpBug2a.driver_profiles.getD tpBug2a.target_profiles.length DriverProfile.null) } :
    TrafficPattern) = tpBug2b from rfl]
  rw [show (3 : ℕ) = 2 + 1 from rfl]
  rw [optTargetLoop]
  rw [hrevD]
  simp only []
  rw [if_neg (fun hc => absurd hc.1 (by norm_num))]
  rw [hrevE]
  simp only []
  rw [if_neg (by norm_num : ¬((-29991 / 50 : ℚ) < -29991 / 50))]

/-- Generic accepted step of the cop-count loop: when the revenue is
non-decreasing, the loop recomputes the revenue, appends one cop,
re-optimizes the target set and recurses with the recomputed threshold.
(Stated over variables so the match reductions never evaluate closed
program states.) -/
theorem optNCopsLoop_step_accept (draws : ℕ → ℕ → ℚ) (maxRev : ℚ) (tp : TrafficPattern)
    (fuel : ℕ) (rev : ℚ) (tp1 : TrafficPattern) (rev2 : ℚ) (tp2 tp3 : TrafficPattern)
    (h1 : get_revenue_per_hour draws tp = .ok (rev, tp1))
    (hge : rev ≥ maxRev)
    (h2 : get_revenue_per_hour draws tp1 = .ok (rev2, tp2))
    (h3 : optimize_on_target_profiles draws
      { tp2 with cops := (copsIAdd tp2.cop_counter 1 tp2.cops).1,
                 cop_counter := (copsIAdd tp2.cop_counter 1 tp2.cops).2 } = .ok tp3) :
    optNCopsLoop draws maxRev tp (fuel + 1) = optNCopsLoop draws rev2 tp3 fuel := by
  rw [optNCopsLoop, h1]
  simp only []
  rw [if_pos hge, h2]
  simp only []
  rw [h3]

/-- Generic rejected step of the cop-count loop: on the first strictly
decreasing revenue the loop stops, drops the last cop, and rebuilds the
aggregate — leaving `target_profiles` exactly as the rejected
re-optimization left it (the aliased roll-back assignment is a no-op). -/
theorem optNCopsLoop_step_exit (draws : ℕ → ℕ → ℚ) (maxRev : ℚ) (tp : TrafficPattern)
    (fuel : ℕ) (rev : ℚ) (tp1 : TrafficPattern) (q : List Cop)
    (h1 : get_revenue_per_hour draws tp = .ok (rev, tp1))
    (hlt : ¬(rev ≥ maxRev))
    (hsub : copsISub 1 tp1.cops = (.ok (), q)) :
    optNCopsLoop draws maxRev tp (fuel + 1) =
      .ok { tp1 with cops := q, target_profile := reduceAdd tp1.target_profiles } := by
  rw [optNCopsLoop, h1]
  simp only []
  rw [if_neg hlt, hsub]

/-- Generic evaluation of a whole `run_target_optimizer` run from its two
stages. -/
theorem run_target_optimizer_eval (draws : ℕ → ℕ → ℚ) (counter : ℕ) (cache : Cache)
    (runs : ℕ) (ps : List DriverProfile) (tp0 tpF : TrafficPattern)
    (hinit : TrafficPattern.init counter cache runs ps = .ok tp0)
    (hopt : optimize_on_target_profiles draws tp0 = .ok tpF) :
    run_target_optimizer draws counter cache runs ps = .ok tpF := by
  unfold run_target_optimizer
  rw [hinit]
  simp only []
  exact hopt

/-- Generic evaluation of a whole `run_optimizer` run from its three
stages. -/
theorem run_optimizer_eval (draws : ℕ → ℕ → ℚ) (counter : ℕ) (cache : Cache)
    (runs : ℕ) (ps : List DriverProfile) (fuel : ℕ) (tp0 tp1 tpF : TrafficPattern)
    (hinit : TrafficPattern.init counter cache runs ps = .ok tp0)
    (hopt : optimize_on_target_profiles draws tp0 = .ok tp1)
    (hloop : optNCopsLoop draws (-INF) tp1 fuel = .ok tpF) :
    run_optimizer draws counter cache runs ps fuel = .ok tpF := by
  unfold run_optimizer
  rw [hinit]
  simp only []
  unfold optimize_on_n_cops
  rw [hopt]
  simp only []
  exact hloop

/-- The cop-count loop on the C1 scenario: one accepted increment
(1 → 2 cops), then the first strictly decreasing step rolls the count back —
but not the target list. -/
theorem hNC : optNCopsLoop dBug (-INF) tpBug1 5 = .ok tpBugF := by
  rw [show (5 : ℕ) = 4 + 1 from rfl,
    optNCopsLoop_step_accept dBug (-INF) tpBug1 4 (-900 / 11) tpBug1 (-900 / 11)
      tpBug1 tpBug2c hrevA (by norm_num [INF]) hrevA hTP2,
    show (4 : ℕ) = 3 + 1 from rfl,
    optNCopsLoop_step_exit dBug (-900 / 11) tpBug2c 3 (-29991 / 50) tpBug2c [⟨1, 0⟩]
      hrevE (by norm_num) rfl]
  rfl

/-- C1: the scenario profiles `[pP1, pP2]` with the realizable Monte Carlo
outcomes encoded by `dBug`.

* At the accepted pool size 1, `optimize_on_target_profiles` selects exactly
  `[pP1]` (the first conjunct) — this is the target set paired with the last
  accepted count inside `optimize_on_n_cops` as well.
* The full `optimize_on_n_cops` run rolls the pool back to 1 cop (second
  conjunct), but the target-profile list it returns is `[pP1, pP2]` — the
  set the final, *rejected* `optimize_on_target_profiles` call grew at 2
  cops — because `self.target_profiles = prev_target_profiles` assigns back
  an alias of the same in-place-mutated list instead of a snapshot.

The code therefore pairs the rolled-back count with the wrong target set,
contradicting both the spec's roll-back sentence and the code's own intent
(binding `prev_target_profiles` before re-optimizing). -/
theorem optimize_on_n_cops_rollback_noop :
    final_target_profiles (run_target_optimizer dBug 0 [] 0 [pP1, pP2]) = [pP1] ∧
    final_n_cops (run_optimizer dBug 0 [] 0 [pP1, pP2] 5) = 1 ∧
    final_target_profiles (run_optimizer dBug 0 [] 0 [pP1, pP2] 5) = [pP1, pP2] ∧
    [pP1, pP2] ≠ [pP1] := by
  refine ⟨?_, ?_, ?_, by simp [pP1, pP2, DriverProfile.ofRaw]⟩
  · rw [run_target_optimizer_eval dBug 0 [] 0 [pP1, pP2] tpBug0 tpBug1 hInitBug hPhase1]
    rfl
  · rw [run_optimizer_eval dBug 0 [] 0 [pP1, pP2] 5 tpBug0 tpBug1 tpBugF hInitBug
      hPhase1 hNC]
    rfl
  · rw [run_optimizer_eval dBug 0 [] 0 [pP1, pP2] 5 tpBug0 tpBug1 tpBugF hInitBug
      hPhase1 hNC]
    rfl
end TrafficTicket
